import Mathlib

/-!
Formal model of the capacity-search engine of open-simulator,
`pkg/apply/apply.go`.  The `Run` method of `DefaulterApply` is embedded as a
pure Lean function over an explicit environment (`Env`, the filesystem and
manifest-loading collaborators) and an explicit placement oracle
(`SimOracle`, the `simulator` package seen through the calls `Run` makes).
External calls are deterministic functions of an abstract simulator state
`σ`; every observable action of a round (simulator construction, cluster
sync, node addition, pod batches, scheduling outcomes, config-map saves,
interactive prompts) is recorded as an event so that the control flow of
the Go loop can be stated and proved as theorems.
-/

namespace OpenSimulator

/-- Errors are abstract messages, as produced by fmt.Errorf in the source. -/
abbrev Err := String

/-- A placement unit (pod).  Opaque payload, identified by a number. -/
abbrev Pod := Nat

/-- A machine description (the decoded newNode yaml).  Opaque payload. -/
abbrev Node := String

/-- A set of kubernetes objects loaded from an application directory
(`GetObjectsFromFiles` result).  Opaque payload. -/
abbrev Resource := String

/-- The cluster section of the simon config (simonv1.Cluster). -/
structure Cluster where
  KubeConfig : String
  CustomCluster : String
deriving DecidableEq, Repr

/-- One application entry of the simon config (simonv1.AppInfo). -/
structure AppInfo where
  Name : String
  Path : String
  Chart : Bool
deriving DecidableEq, Repr

/-- The fields of the `simonv1.Simon` custom resource that
`ParseArgsAndConfigFile` reads (spec.cluster, spec.appList, spec.newNode). -/
structure SimonSpec where
  Cluster : Cluster
  AppList : List AppInfo
  NewNode : String
deriving DecidableEq, Repr

/-- The session options (apply.Options, apply.go lines 30-35).  These four
fields are the whole option surface of a session. -/
structure Options where
  SimonConfig : String
  DefaultSchedulerConfigFile : String
  UseGreed : Bool
  Interactive : Bool
deriving DecidableEq, Repr

/-- The applier state (apply.DefaulterApply, apply.go lines 37-43). -/
structure DefaulterApply where
  Cluster : Cluster
  AppList : List AppInfo
  NewNode : String
  SchedulerConfig : String
  UseGreed : Bool
deriving DecidableEq, Repr

/-- One workload (simontype.ResourceInfo): name plus loaded objects.  The
Go field Resource is rendered Res because the field would shadow the type
of the same name. -/
structure ResourceInfo where
  Name : String
  Res : Resource
deriving DecidableEq, Repr

/-- The deterministic environment behind the filesystem / manifest-loading
collaborators used before the search loop.  Each field stands for one call
site in apply.go; error strings produced inside the collaborators travel
through unchanged.
  - fileExists: os.Stat (used by Validate);
  - readSimonConfig: ioutil.ReadFile + yaml.YAMLToJSON + json.Unmarshal
    (lines 248-260, the three failure messages are folded into the Err);
  - processChart: chart.ProcessChart (line 61);
  - parseFilePath: utils.ParseFilePath (line 69);
  - getObjectsFromFiles: utils.GetObjectsFromFiles (line 75);
  - decodeNode: utils.DecodeYamlFile(...).(*corev1.Node) (line 87),
    none when the type assertion fails;
  - buildKubeClient: GetMasterFromKubeConfig + BuildConfigFromFlags +
    NewForConfig (lines 188-201, folded);
  - initSchedulerConfig: getAndSetSchedulerConfig (lines 206-245); the
    scheduler-plugin wiring has no influence on the control flow modelled
    here, only its possible failure, as a function of the config path. -/
structure Env where
  fileExists : String → Bool
  readSimonConfig : String → Except Err SimonSpec
  processChart : String → String → Except Err String
  parseFilePath : String → Except Err (List String)
  getObjectsFromFiles : List String → Except Err Resource
  decodeNode : String → Option Node
  buildKubeClient : String → Except Err Unit
  initSchedulerConfig : String → Except Err Unit

/-- The simulator (`pkg/simulator`) as seen from `Run`, over an abstract
simulator state `σ`.  Each field is one method called inside the search
loop; all are deterministic functions of the state.
  - new: simulator.New (line 107);
  - createFakeCluster: sim.CreateFakeCluster (line 116);
  - addNewNode: sim.AddNewNode(newNode, i) (line 121);
  - generatePods: simulator.GenerateValidPodsFromResources (line 131);
  - daemonPods: sim.GenerateValidDaemonPodsForNewNode (line 133);
  - getNodes: sim.GetNodes (line 139);
  - sortGreed: algo.NewGreedQueue + sort.Sort (lines 139-140), an opaque
    reordering function of the node set and the pod batch;
  - schedulePods: sim.SchedulePods (line 148);
  - saveConfigMap: sim.CreateConfigMapAndSaveItToFile (line 157);
  - confirm: utils.Confirm, the interactive operator answer (line 162). -/
structure SimOracle (σ : Type) where
  new : Except Err σ
  createFakeCluster : σ → String → Except Err σ
  addNewNode : σ → Node → Nat → Except Err σ
  generatePods : σ → Resource → List Pod
  daemonPods : σ → List Pod
  getNodes : σ → List Node
  sortGreed : List Node → List Pod → List Pod
  schedulePods : σ → List Pod → Except Err σ
  saveConfigMap : σ → Except Err σ
  confirm : σ → String → Bool

/-- One observable action inside a search round. -/
inductive REvent where
  /-- simulator.New was called (line 107). -/
  | simNew : REvent
  /-- sim.CreateFakeCluster was called with the given base description. -/
  | sync (base : String) : REvent
  /-- sim.AddNewNode was called with the node template and the trial count. -/
  | addNode (tmpl : Node) (count : Nat) : REvent
  /-- The daemon pods of the cluster were expanded (line 133). -/
  | daemons (pods : List Pod) : REvent
  /-- A workload batch was submitted: raw expansion order and the order
  actually passed to SchedulePods (after the optional greed sort). -/
  | batch (name : String) (raw : List Pod) (submitted : List Pod) : REvent
  /-- SchedulePods returned an error for this workload (line 150). -/
  | schedFail (name : String) (e : Err) : REvent
  /-- SchedulePods succeeded for this workload (lines 153-155). -/
  | schedOk (name : String) : REvent
  /-- CreateConfigMapAndSaveItToFile succeeded (line 157). -/
  | saveOk (name : String) : REvent
  /-- CreateConfigMapAndSaveItToFile failed; Run returns this error. -/
  | saveFail (name : String) (e : Err) : REvent
  /-- The interactive prompt was shown and answered (lines 160-167). -/
  | ask (name : String) (ans : Bool) : REvent
  /-- sim.Close was called (line 170). -/
  | close : REvent
deriving DecidableEq, Repr

/-- The record of one iteration of the `for i := 0; i < 100; i++` loop:
the trial size, the events of the round, and the value of the `success`
flag when the inner workload loop exited. -/
structure RoundLog where
  k : Nat
  events : List REvent
  success : Bool
deriving DecidableEq, Repr

/-- The outcome of a whole `Run` call: the error value Go returns, the
rounds attempted in order, and the round at which the success message
(line 173) was printed, if any. -/
structure RunResult where
  err : Option Err
  rounds : List RoundLog
  reported : Option Nat
deriving DecidableEq, Repr

/-- apply.go lines 301-305: the per-app os.Stat loop of Validate. -/
def validateApps (env : Env) : List AppInfo → Except Err Unit
  | [] => Except.ok ()
  | app :: rest =>
    if !env.fileExists app.Path then
      Except.error ("invalid path of " ++ app.Name ++ " app")
    else validateApps env rest

/-- Validation of the applier (DefaulterApply.Validate, apply.go lines
271-308). -/
def Validate (env : Env) (applier : DefaulterApply) : Except Err Unit :=
  if (applier.Cluster.KubeConfig.length == 0 && applier.Cluster.CustomCluster.length == 0)
      || (applier.Cluster.KubeConfig.length != 0 && applier.Cluster.CustomCluster.length != 0) then
    Except.error ("only one of values of both kubeConfig and customConfig must exist")
  else if applier.Cluster.KubeConfig.length != 0 && !env.fileExists applier.Cluster.KubeConfig then
    Except.error ("invalid path of kubeConfig")
  else if applier.Cluster.CustomCluster.length != 0 && !env.fileExists applier.Cluster.CustomCluster then
    Except.error ("invalid path of customConfig")
  else if applier.SchedulerConfig.length != 0 && !env.fileExists applier.SchedulerConfig then
    Except.error ("invalid path of scheduler config")
  else if applier.NewNode.length != 0 && !env.fileExists applier.NewNode then
    Except.error ("invalid path of newNode")
  else validateApps env applier.AppList

/-- Parsing of the simon config (DefaulterApply.ParseArgsAndConfigFile,
apply.go lines 247-269).  All five fields of the applier are overwritten
from the config file and the options, so the applier is built fresh. -/
def ParseArgsAndConfigFile (env : Env) (opts : Options) : Except Err DefaulterApply :=
  match env.readSimonConfig opts.SimonConfig with
  | Except.error e => Except.error e
  | Except.ok simonCR =>
    Except.ok
      { Cluster := simonCR.Cluster
        AppList := simonCR.AppList
        NewNode := simonCR.NewNode
        SchedulerConfig := opts.DefaultSchedulerConfigFile
        UseGreed := opts.UseGreed }

/-- The per-app loop of Run (apply.go lines 57-85) building resourceList. -/
def buildResourceList (env : Env) : List AppInfo → Except Err (List ResourceInfo)
  | [] => Except.ok []
  | app :: rest =>
    match (if app.Chart then env.processChart app.Name app.Path else Except.ok app.Path) with
    | Except.error e => Except.error e
    | Except.ok newPath =>
      match env.parseFilePath newPath with
      | Except.error e => Except.error ("Failed to parse the application config path: " ++ e ++ " ")
      | Except.ok appFilePaths =>
        match env.getObjectsFromFiles appFilePaths with
        | Except.error e => Except.error e
        | Except.ok appResource =>
          match buildResourceList env rest with
          | Except.error e => Except.error e
          | Except.ok resourceList => Except.ok ({ Name := app.Name, Res := appResource } :: resourceList)

/-- Kube-client construction (DefaulterApply.generateKubeClient, apply.go
lines 181-203): nil client when no kubeConfig is given, otherwise the
client build may fail. -/
def generateKubeClient (env : Env) (applier : DefaulterApply) : Except Err Unit :=
  if applier.Cluster.KubeConfig.length == 0 then Except.ok ()
  else env.buildKubeClient applier.Cluster.KubeConfig

/-- The inner workload loop of a round (apply.go lines 127-169).  Arguments
mirror the Go locals: the remaining resourceList, the simulator state, and
the `success` / `added` flags.  Returns the events of the loop, the value
of `success` at loop exit, and a fatal error if
CreateConfigMapAndSaveItToFile failed (Go returns it from Run directly). -/
def roundWorkloads (O : SimOracle σ) (useGreed interactive : Bool) :
    List ResourceInfo → σ → Bool → Bool → List REvent × Bool × Option Err
  | [], _, success, _ => ([], success, none)
  | r :: rest, s, _, added =>
    -- line 129: success = false; lines 131-135: expansion and the
    -- once-per-round daemon append guarded by `added`.
    let daemonEvs : List REvent :=
      if !added then [REvent.daemons (O.daemonPods s)] else []
    let appPods : List Pod :=
      if !added then O.generatePods s r.Res ++ O.daemonPods s else O.generatePods s r.Res
    let added1 : Bool := if !added then true else added
    -- lines 138-145: optional greed ordering before submission.
    let submitted : List Pod :=
      if useGreed then O.sortGreed (O.getNodes s) appPods else appPods
    match O.schedulePods s submitted with
    | Except.error e =>
      -- lines 149-151: failure printed, break out of the workload loop.
      (daemonEvs ++ [REvent.batch r.Name appPods submitted, REvent.schedFail r.Name e],
        false, none)
    | Except.ok s1 =>
      -- lines 152-156: success = true, report printed.
      match O.saveConfigMap s1 with
      | Except.error e =>
        -- lines 157-159: the save error aborts Run itself.
        (daemonEvs ++ [REvent.batch r.Name appPods submitted, REvent.schedOk r.Name,
            REvent.saveFail r.Name e], true, some e)
      | Except.ok s2 =>
        if interactive then
          if O.confirm s2 r.Name then
            match roundWorkloads O useGreed interactive rest s2 true added1 with
            | (evs, succ, fatal) =>
              (daemonEvs ++ REvent.batch r.Name appPods submitted :: REvent.schedOk r.Name ::
                  REvent.saveOk r.Name :: REvent.ask r.Name true :: evs, succ, fatal)
          else
            -- line 165: operator declined, break with success still true.
            (daemonEvs ++ [REvent.batch r.Name appPods submitted, REvent.schedOk r.Name,
                REvent.saveOk r.Name, REvent.ask r.Name false], true, none)
        else
          match roundWorkloads O useGreed interactive rest s2 true added1 with
          | (evs, succ, fatal) =>
            (daemonEvs ++ REvent.batch r.Name appPods submitted :: REvent.schedOk r.Name ::
                REvent.saveOk r.Name :: evs, succ, fatal)

/-- One iteration of the search loop at trial size `i` (apply.go lines
106-170): fresh simulator, sync of the base cluster, addition of `i` trial
nodes, then the workload loop.  Returns the round log and the fatal error,
if any (Go returns fatal errors from Run at once; note that on a config-map
save failure Run returns before reaching sim.Close, line 170). -/
def runRound (O : SimOracle σ) (applier : DefaulterApply) (newNode : Node)
    (resourceList : List ResourceInfo) (interactive : Bool) (i : Nat) :
    RoundLog × Option Err :=
  match O.new with
  | Except.error e => ({ k := i, events := [REvent.simNew], success := false }, some e)
  | Except.ok s =>
    match O.createFakeCluster s applier.Cluster.CustomCluster with
    | Except.error e =>
      ({ k := i, events := [REvent.simNew, REvent.sync applier.Cluster.CustomCluster],
          success := false }, some ("create fake cluster failed: " ++ e))
    | Except.ok s1 =>
      match O.addNewNode s1 newNode i with
      | Except.error e =>
        ({ k := i, events := [REvent.simNew, REvent.sync applier.Cluster.CustomCluster,
            REvent.addNode newNode i], success := false }, some e)
      | Except.ok s2 =>
        match roundWorkloads O applier.UseGreed interactive resourceList s2 false false with
        | (evs, succ, some e) =>
          ({ k := i, events := REvent.simNew :: REvent.sync applier.Cluster.CustomCluster ::
              REvent.addNode newNode i :: evs, success := succ }, some e)
        | (evs, succ, none) =>
          ({ k := i, events := REvent.simNew :: REvent.sync applier.Cluster.CustomCluster ::
              REvent.addNode newNode i :: (evs ++ [REvent.close]), success := succ }, none)

/-- The search loop `for i := 0; i < 100; i++` (apply.go lines 105-176),
written with an explicit remaining-iteration count (`fuel`, 100 - i at
entry).  Returns the round logs in order, the round whose success broke
the loop (line 172-175), and the session error. -/
def runRounds (O : SimOracle σ) (applier : DefaulterApply) (newNode : Node)
    (resourceList : List ResourceInfo) (interactive : Bool) :
    Nat → Nat → List RoundLog × Option Nat × Except Err Unit
  | _, 0 => ([], none, Except.ok ())
  | i, fuel + 1 =>
    match runRound O applier newNode resourceList interactive i with
    | (log, some e) => ([log], none, Except.error e)
    | (log, none) =>
      if log.success then ([log], some i, Except.ok ())
      else
        match runRounds O applier newNode resourceList interactive (i + 1) fuel with
        | (logs, rep, res) => (log :: logs, rep, res)

/-- The session entry point (DefaulterApply.Run, apply.go lines 45-178):
parse the
simon config, validate, load the workloads, decode the candidate node,
build the kube client and the scheduler config, then search.  The result
carries the Go return value (`err`), the attempted rounds, and the round
at which the success message was printed. -/
def Run (env : Env) (O : SimOracle σ) (opts : Options) : RunResult :=
  match ParseArgsAndConfigFile env opts with
  | Except.error e => { err := some ("Parse Error: " ++ e ++ " "), rounds := [], reported := none }
  | Except.ok applier =>
    match Validate env applier with
    | Except.error e =>
      { err := some ("Invalid information: " ++ e ++ " "), rounds := [], reported := none }
    | Except.ok _ =>
      match buildResourceList env applier.AppList with
      | Except.error e => { err := some e, rounds := [], reported := none }
      | Except.ok resourceList =>
        match env.decodeNode applier.NewNode with
        | none =>
          { err := some ("The NewNode file(" ++ applier.NewNode ++ ") is not a Node yaml "),
            rounds := [], reported := none }
        | some newNode =>
          match generateKubeClient env applier with
          | Except.error e =>
            { err := some ("Failed to get kubeclient: " ++ e ++ " "), rounds := [], reported := none }
          | Except.ok _ =>
            match env.initSchedulerConfig applier.SchedulerConfig with
            | Except.error e => { err := some e, rounds := [], reported := none }
            | Except.ok _ =>
              match runRounds O applier newNode resourceList opts.Interactive 0 100 with
              | (logs, rep, Except.error e) => { err := some e, rounds := logs, reported := rep }
              | (logs, rep, Except.ok _) => { err := none, rounds := logs, reported := rep }

/-- Events emitted by the round setup and teardown (simulator construction,
base sync, trial-node addition, close), as opposed to the workload loop. -/
def setupEv : REvent → Bool
  | REvent.simNew => true
  | REvent.sync _ => true
  | REvent.addNode _ _ => true
  | REvent.close => true
  | _ => false

/-- Whether an event is a daemon-pod expansion. -/
def isDaemons : REvent → Bool
  | REvent.daemons _ => true
  | _ => false

/-- The workload name of a successful-scheduling event, if it is one. -/
def schedOkName : REvent → Option String
  | REvent.schedOk n => some n
  | _ => none

/-- Every successful scheduling of a workload is immediately followed by a
config-map persistence attempt for the same workload (successful or not). -/
def schedOkFollowed : List REvent → Bool
  | REvent.schedOk n :: rest =>
    (match rest with
     | REvent.saveOk m :: _ => n == m
     | REvent.saveFail m _ :: _ => n == m
     | _ => false) && schedOkFollowed rest
  | _ :: rest => schedOkFollowed rest
  | [] => true

/-! ### Concrete fixtures

Small deterministic environments and oracles used to evaluate the model at
concrete inputs.  The simulator state is a single `Nat`; `addNewNode`
stores the trial size in the state so that oracles can make the round
outcome depend on the trial size. -/

/-- Environment with a single workload named A and a static cluster file. -/
def env1 : Env :=
  { fileExists := fun _ => true
    readSimonConfig := fun _ =>
      Except.ok { Cluster := { KubeConfig := "", CustomCluster := "c" }
                  AppList := [{ Name := "A", Path := "p", Chart := false }]
                  NewNode := "n" }
    processChart := fun _ _ => Except.ok ("")
    parseFilePath := fun _ => Except.ok []
    getObjectsFromFiles := fun _ => Except.ok ("r")
    decodeNode := fun _ => some ("n")
    buildKubeClient := fun _ => Except.ok ()
    initSchedulerConfig := fun _ => Except.ok () }

/-- Environment with two workloads A and B. -/
def env2 : Env :=
  { env1 with
    readSimonConfig := fun _ =>
      Except.ok { Cluster := { KubeConfig := "", CustomCluster := "c" }
                  AppList := [{ Name := "A", Path := "p", Chart := false },
                              { Name := "B", Path := "q", Chart := false }]
                  NewNode := "n" } }

/-- Environment with an empty workload list. -/
def envEmpty : Env :=
  { env1 with
    readSimonConfig := fun _ =>
      Except.ok { Cluster := { KubeConfig := "", CustomCluster := "c" }
                  AppList := []
                  NewNode := "n" } }

/-- Environment whose simon config supplies neither kubeConfig nor
customCluster. -/
def envNeither : Env :=
  { env1 with
    readSimonConfig := fun _ =>
      Except.ok { Cluster := { KubeConfig := "", CustomCluster := "" }
                  AppList := [{ Name := "A", Path := "p", Chart := false }]
                  NewNode := "n" } }

/-- Environment whose simon config supplies both kubeConfig and
customCluster. -/
def envBoth : Env :=
  { env1 with
    readSimonConfig := fun _ =>
      Except.ok { Cluster := { KubeConfig := "k", CustomCluster := "c" }
                  AppList := [{ Name := "A", Path := "p", Chart := false }]
                  NewNode := "n" } }

/-- Oracle whose scheduling always succeeds. -/
def oracleOk : SimOracle Nat :=
  { new := Except.ok 0
    createFakeCluster := fun s _ => Except.ok s
    addNewNode := fun _ _ i => Except.ok i
    generatePods := fun _ _ => [7]
    daemonPods := fun _ => [9]
    getNodes := fun _ => []
    sortGreed := fun _ pods => pods
    schedulePods := fun s _ => Except.ok s
    saveConfigMap := fun s => Except.ok s
    confirm := fun _ _ => true }

/-- Oracle whose scheduling always fails: the session exhausts the bound. -/
def oracleFail : SimOracle Nat :=
  { oracleOk with schedulePods := fun _ _ => Except.error ("nofit") }

/-- Oracle that schedules successfully exactly when at least one trial node
was added (the state holds the trial size): round 0 fails, round 1 wins. -/
def oracleNeedOne : SimOracle Nat :=
  { oracleOk with
    schedulePods := fun s _ => if 1 ≤ s then Except.ok s else Except.error ("nofit") }

/-- Oracle whose config-map persistence fails. -/
def oracleSaveFail : SimOracle Nat :=
  { oracleOk with saveConfigMap := fun _ => Except.error ("savefail") }

/-- Oracle for the interactive scenario: scheduling succeeds and the
operator declines to continue at every prompt. -/
def oracleDecline : SimOracle Nat :=
  { oracleOk with confirm := fun _ _ => false }

/-- Non-interactive session options. -/
def optsPlain : Options :=
  { SimonConfig := "s", DefaultSchedulerConfigFile := "", UseGreed := false,
    Interactive := false }

/-- Interactive session options. -/
def optsInteractive : Options :=
  { optsPlain with Interactive := true }

/-- Non-interactive options with the greed ordering enabled. -/
def optsGreed : Options :=
  { optsPlain with UseGreed := true }

/-- The single round of the save-failure witness session. -/
def saveFailLog : RoundLog :=
  { k := 0,
    events := [REvent.simNew, REvent.sync ("c"), REvent.addNode ("n") 0,
      REvent.daemons [9], REvent.batch ("A") [7, 9] [7, 9], REvent.schedOk ("A"),
      REvent.saveFail ("A") ("savefail")],
    success := true }


lemma sof_daemons (d : List Pod) (l : List REvent) :
    schedOkFollowed (REvent.daemons d :: l) = schedOkFollowed l := rfl

lemma sof_batch (n : String) (r s : List Pod) (l : List REvent) :
    schedOkFollowed (REvent.batch n r s :: l) = schedOkFollowed l := rfl

lemma sof_schedFail (n : String) (e : Err) (l : List REvent) :
    schedOkFollowed (REvent.schedFail n e :: l) = schedOkFollowed l := rfl

lemma sof_saveOk (n : String) (l : List REvent) :
    schedOkFollowed (REvent.saveOk n :: l) = schedOkFollowed l := rfl

lemma sof_saveFail (n : String) (e : Err) (l : List REvent) :
    schedOkFollowed (REvent.saveFail n e :: l) = schedOkFollowed l := rfl

lemma sof_ask (n : String) (a : Bool) (l : List REvent) :
    schedOkFollowed (REvent.ask n a :: l) = schedOkFollowed l := rfl

lemma sof_schedOk_saveOk (n : String) (l : List REvent) :
    schedOkFollowed (REvent.schedOk n :: REvent.saveOk n :: l)
      = schedOkFollowed (REvent.saveOk n :: l) := by
  simp [schedOkFollowed]

lemma sof_schedOk_saveFail (n : String) (e : Err) (l : List REvent) :
    schedOkFollowed (REvent.schedOk n :: REvent.saveFail n e :: l)
      = schedOkFollowed (REvent.saveFail n e :: l) := by
  simp [schedOkFollowed]

lemma sof_simNew (l : List REvent) :
    schedOkFollowed (REvent.simNew :: l) = schedOkFollowed l := rfl

lemma sof_sync (b : String) (l : List REvent) :
    schedOkFollowed (REvent.sync b :: l) = schedOkFollowed l := rfl

lemma sof_addNode (t : Node) (c : Nat) (l : List REvent) :
    schedOkFollowed (REvent.addNode t c :: l) = schedOkFollowed l := rfl

lemma sof_close (l : List REvent) :
    schedOkFollowed (REvent.close :: l) = schedOkFollowed l := rfl

lemma sufCons {α : Type} (a : α) {x : α} {rest : List α} (h : ∃ l, rest = l ++ [x]) :
    ∃ l, a :: rest = l ++ [x] := by
  obtain ⟨l, rfl⟩ := h
  exact ⟨a :: l, rfl⟩

set_option maxHeartbeats 1000000

lemma roundWorkloads_inv (O : SimOracle σ) (g itv : Bool) (rl : List ResourceInfo) :
    ∀ (s : σ) (b added : Bool) (evs : List REvent) (succ : Bool) (fatal : Option Err),
      roundWorkloads O g itv rl s b added = (evs, succ, fatal) →
      ((evs.all fun ev => !setupEv ev) = true) ∧
      (added = true → (evs.all fun ev => !isDaemons ev) = true) ∧
      (itv = false → fatal = none → succ = true →
        evs.filterMap schedOkName = rl.map ResourceInfo.Name) ∧
      (∀ n e, REvent.schedFail n e ∈ evs → ∃ l, evs = l ++ [REvent.schedFail n e]) ∧
      (∀ n e, REvent.saveFail n e ∈ evs →
        fatal = some e ∧ ∃ l, evs = l ++ [REvent.saveFail n e]) ∧
      schedOkFollowed evs = true ∧
      schedOkFollowed (evs ++ [REvent.close]) = true := by
  induction rl with
  | nil =>
    intro s b added evs succ fatal h
    simp only [roundWorkloads, Prod.mk.injEq] at h
    obtain ⟨rfl, rfl, rfl⟩ := h
    simp [schedOkFollowed, sof_close]
  | cons r rest ih =>
    intro s b added evs succ fatal h
    cases added with
    | false =>
      simp only [roundWorkloads, Bool.not_false, if_true, List.cons_append,
        List.nil_append] at h
      split at h
      case _ e heq =>
        simp only [Prod.mk.injEq] at h
        obtain ⟨rfl, rfl, rfl⟩ := h
        refine ⟨by simp [setupEv], by simp, by simp, ?_, by simp,
          by simp [sof_daemons, sof_batch, sof_schedFail, schedOkFollowed],
          by simp [sof_daemons, sof_batch, sof_schedFail, sof_close, schedOkFollowed]⟩
        intro n e' hmem
        simp at hmem
        obtain ⟨rfl, rfl⟩ := hmem
        exact ⟨[_, _], rfl⟩
      case _ s1 heq =>
        split at h
        case _ e heq2 =>
          simp only [Prod.mk.injEq] at h
          obtain ⟨rfl, rfl, rfl⟩ := h
          refine ⟨by simp [setupEv], by simp, by simp, by simp, ?_,
            by simp [sof_daemons, sof_batch, sof_schedOk_saveFail, sof_saveFail, schedOkFollowed],
            by simp [sof_daemons, sof_batch, sof_schedOk_saveFail, sof_saveFail, sof_close,
              schedOkFollowed]⟩
          intro n e' hmem
          simp at hmem
          obtain ⟨rfl, rfl⟩ := hmem
          exact ⟨rfl, ⟨[_, _, _], rfl⟩⟩
        case _ s2 heq2 =>
          split at h
          case isTrue hitv =>
            split at h
            case isTrue hc =>
              rcases hrec : roundWorkloads O g itv rest s2 true true with ⟨evs1, succ1, fatal1⟩
              rw [hrec] at h
              simp only [Prod.mk.injEq] at h
              obtain ⟨rfl, rfl, rfl⟩ := h
              obtain ⟨ih1, ih2, ih3, ih4, ih5, ih6, ih7⟩ := ih s2 true true evs1 succ1 fatal1 hrec
              refine ⟨by simpa [setupEv] using ih1, by simp, ?_, ?_, ?_, ?_, ?_⟩
              · intro h3
                simp [h3] at hitv
              · intro n e hmem
                simp at hmem
                exact sufCons _ (sufCons _ (sufCons _ (sufCons _ (sufCons _ (ih4 n e hmem)))))
              · intro n e hmem
                simp at hmem
                exact ⟨(ih5 n e hmem).1,
                  sufCons _ (sufCons _ (sufCons _ (sufCons _ (sufCons _ ((ih5 n e hmem).2)))))⟩
              · simp only [sof_daemons, sof_batch, sof_schedOk_saveOk, sof_saveOk, sof_ask]
                exact ih6
              · simp only [List.cons_append, List.nil_append, sof_daemons, sof_batch,
                  sof_schedOk_saveOk, sof_saveOk, sof_ask]
                exact ih7
            case isFalse hc =>
              simp only [Prod.mk.injEq] at h
              obtain ⟨rfl, rfl, rfl⟩ := h
              refine ⟨by simp [setupEv], by simp, ?_, by simp, by simp,
                by simp [sof_daemons, sof_batch, sof_schedOk_saveOk, sof_saveOk, sof_ask,
                  schedOkFollowed],
                by simp [sof_daemons, sof_batch, sof_schedOk_saveOk, sof_saveOk, sof_ask,
                  sof_close, schedOkFollowed]⟩
              intro h3
              simp [h3] at hitv
          case isFalse hitv =>
            rcases hrec : roundWorkloads O g itv rest s2 true true with ⟨evs1, succ1, fatal1⟩
            rw [hrec] at h
            simp only [Prod.mk.injEq] at h
            obtain ⟨rfl, rfl, rfl⟩ := h
            obtain ⟨ih1, ih2, ih3, ih4, ih5, ih6, ih7⟩ := ih s2 true true evs1 succ1 fatal1 hrec
            refine ⟨by simpa [setupEv] using ih1, by simp, ?_, ?_, ?_, ?_, ?_⟩
            · intro h3 hf hs
              simp [List.filterMap_cons, schedOkName, ih3 h3 hf hs]
            · intro n e hmem
              simp at hmem
              exact sufCons _ (sufCons _ (sufCons _ (sufCons _ (ih4 n e hmem))))
            · intro n e hmem
              simp at hmem
              exact ⟨(ih5 n e hmem).1,
                sufCons _ (sufCons _ (sufCons _ (sufCons _ ((ih5 n e hmem).2))))⟩
            · simp only [sof_daemons, sof_batch, sof_schedOk_saveOk, sof_saveOk]
              exact ih6
            · simp only [List.cons_append, List.nil_append, sof_daemons, sof_batch,
                sof_schedOk_saveOk, sof_saveOk]
              exact ih7
    | true =>
      simp only [roundWorkloads, Bool.not_true] at h
      simp only [Bool.false_eq_true, if_false, List.nil_append] at h
      split at h
      case _ e heq =>
        simp only [Prod.mk.injEq] at h
        obtain ⟨rfl, rfl, rfl⟩ := h
        refine ⟨by simp [setupEv], by simp [isDaemons], by simp, ?_, by simp,
          by simp [sof_batch, sof_schedFail, schedOkFollowed],
          by simp [sof_batch, sof_schedFail, sof_close, schedOkFollowed]⟩
        intro n e' hmem
        simp at hmem
        obtain ⟨rfl, rfl⟩ := hmem
        exact ⟨[_], rfl⟩
      case _ s1 heq =>
        split at h
        case _ e heq2 =>
          simp only [Prod.mk.injEq] at h
          obtain ⟨rfl, rfl, rfl⟩ := h
          refine ⟨by simp [setupEv], by simp [isDaemons], by simp, by simp, ?_,
            by simp [sof_batch, sof_schedOk_saveFail, sof_saveFail, schedOkFollowed],
            by simp [sof_batch, sof_schedOk_saveFail, sof_saveFail, sof_close, schedOkFollowed]⟩
          intro n e' hmem
          simp at hmem
          obtain ⟨rfl, rfl⟩ := hmem
          exact ⟨rfl, ⟨[_, _], rfl⟩⟩
        case _ s2 heq2 =>
          split at h
          case isTrue hitv =>
            split at h
            case isTrue hc =>
              rcases hrec : roundWorkloads O g itv rest s2 true true with ⟨evs1, succ1, fatal1⟩
              rw [hrec] at h
              simp only [Prod.mk.injEq] at h
              obtain ⟨rfl, rfl, rfl⟩ := h
              obtain ⟨ih1, ih2, ih3, ih4, ih5, ih6, ih7⟩ := ih s2 true true evs1 succ1 fatal1 hrec
              refine ⟨by simpa [setupEv] using ih1, by intro hx; simpa [isDaemons] using ih2 rfl, ?_, ?_, ?_, ?_, ?_⟩
              · intro h3
                simp [h3] at hitv
              · intro n e hmem
                simp at hmem
                exact sufCons _ (sufCons _ (sufCons _ (sufCons _ (ih4 n e hmem))))
              · intro n e hmem
                simp at hmem
                exact ⟨(ih5 n e hmem).1,
                  sufCons _ (sufCons _ (sufCons _ (sufCons _ ((ih5 n e hmem).2))))⟩
              · simp only [sof_batch, sof_schedOk_saveOk, sof_saveOk, sof_ask]
                exact ih6
              · simp only [List.cons_append, List.nil_append, sof_batch, sof_schedOk_saveOk,
                  sof_saveOk, sof_ask]
                exact ih7
            case isFalse hc =>
              simp only [Prod.mk.injEq] at h
              obtain ⟨rfl, rfl, rfl⟩ := h
              refine ⟨by simp [setupEv], by simp [isDaemons], ?_, by simp, by simp,
                by simp [sof_batch, sof_schedOk_saveOk, sof_saveOk, sof_ask, schedOkFollowed],
                by simp [sof_batch, sof_schedOk_saveOk, sof_saveOk, sof_ask, sof_close,
                  schedOkFollowed]⟩
              intro h3
              simp [h3] at hitv
          case isFalse hitv =>
            rcases hrec : roundWorkloads O g itv rest s2 true true with ⟨evs1, succ1, fatal1⟩
            rw [hrec] at h
            simp only [Prod.mk.injEq] at h
            obtain ⟨rfl, rfl, rfl⟩ := h
            obtain ⟨ih1, ih2, ih3, ih4, ih5, ih6, ih7⟩ := ih s2 true true evs1 succ1 fatal1 hrec
            refine ⟨by simpa [setupEv] using ih1, by intro hx; simpa [isDaemons] using ih2 rfl, ?_, ?_, ?_, ?_, ?_⟩
            · intro h3 hf hs
              simp [List.filterMap_cons, schedOkName, ih3 h3 hf hs]
            · intro n e hmem
              simp at hmem
              exact sufCons _ (sufCons _ (sufCons _ (ih4 n e hmem)))
            · intro n e hmem
              simp at hmem
              exact ⟨(ih5 n e hmem).1,
                sufCons _ (sufCons _ (sufCons _ ((ih5 n e hmem).2)))⟩
            · simp only [sof_batch, sof_schedOk_saveOk, sof_saveOk]
              exact ih6
            · simp only [List.cons_append, List.nil_append, sof_batch, sof_schedOk_saveOk,
                sof_saveOk]
              exact ih7
lemma runRound_inv (O : SimOracle σ) (A : DefaulterApply) (nn : Node)
    (RL : List ResourceInfo) (itv : Bool) (i : Nat) (log : RoundLog) (fatal : Option Err)
    (h : runRound O A nn RL itv i = (log, fatal)) :
    log.k = i ∧
    log.events.head? = some REvent.simNew ∧
    log.events.count REvent.simNew = 1 ∧
    (∀ bb, REvent.sync bb ∈ log.events → bb = A.Cluster.CustomCluster) ∧
    (∀ t c, REvent.addNode t c ∈ log.events → t = nn ∧ c = i) ∧
    (RL = [] → log.success = false) ∧
    (∀ n e, REvent.saveFail n e ∈ log.events →
      fatal = some e ∧ ∃ l, log.events = l ++ [REvent.saveFail n e]) ∧
    schedOkFollowed log.events = true := by
  simp only [runRound] at h
  split at h
  case _ e heq =>
    simp only [Prod.mk.injEq] at h
    obtain ⟨rfl, rfl⟩ := h
    refine ⟨rfl, rfl, by simp, by simp, by simp, fun _ => rfl, by simp, rfl⟩
  case _ s heq =>
    split at h
    case _ e heq2 =>
      simp only [Prod.mk.injEq] at h
      obtain ⟨rfl, rfl⟩ := h
      refine ⟨rfl, rfl, by simp, ?_, by simp, fun _ => rfl, by simp, rfl⟩
      intro bb hmem
      simp at hmem
      exact hmem
    case _ s1 heq2 =>
      split at h
      case _ e heq3 =>
        simp only [Prod.mk.injEq] at h
        obtain ⟨rfl, rfl⟩ := h
        refine ⟨rfl, rfl, by simp, ?_, ?_, fun _ => rfl, by simp, rfl⟩
        · intro bb hmem
          simp at hmem
          exact hmem
        · intro t c hmem
          simp at hmem
          exact hmem
      case _ s2 heq3 =>
        split at h
        case _ evs succ e heq4 =>
          obtain ⟨w1, w2, w3, w4, w5, w6, w7⟩ :=
            roundWorkloads_inv O A.UseGreed itv RL s2 false false evs succ (some e) heq4
          have hset : ∀ ev ∈ evs, setupEv ev = false := by simpa using w1
          simp only [Prod.mk.injEq] at h
          obtain ⟨rfl, rfl⟩ := h
          have hcount : evs.count REvent.simNew = 0 := by
            rw [List.count_eq_zero]
            intro hm
            simpa [setupEv] using hset _ hm
          refine ⟨rfl, rfl, ?_, ?_, ?_, ?_, ?_, ?_⟩
          · simp [List.count_cons, hcount]
          · intro bb hmem
            simp at hmem
            rcases hmem with hmem | hm
            · exact hmem
            · have := hset _ hm
              simp [setupEv] at this
          · intro t c hmem
            simp at hmem
            rcases hmem with hmem | hm
            · exact hmem
            · have := hset _ hm
              simp [setupEv] at this
          · intro hRL
            subst hRL
            simp only [roundWorkloads, Prod.mk.injEq] at heq4
            obtain ⟨rfl, rfl, _⟩ := heq4
            rfl
          · intro n e2 hmem
            simp at hmem
            obtain ⟨hf, l, hl⟩ := w5 _ _ hmem
            exact ⟨hf, sufCons _ (sufCons _ (sufCons _ ⟨l, hl⟩))⟩
          · simpa [sof_simNew, sof_sync, sof_addNode] using w6
        case _ evs succ heq4 =>
          obtain ⟨w1, w2, w3, w4, w5, w6, w7⟩ :=
            roundWorkloads_inv O A.UseGreed itv RL s2 false false evs succ none heq4
          have hset : ∀ ev ∈ evs, setupEv ev = false := by simpa using w1
          simp only [Prod.mk.injEq] at h
          obtain ⟨rfl, rfl⟩ := h
          have hcount : evs.count REvent.simNew = 0 := by
            rw [List.count_eq_zero]
            intro hm
            simpa [setupEv] using hset _ hm
          refine ⟨rfl, rfl, ?_, ?_, ?_, ?_, ?_, ?_⟩
          · simp [List.count_cons, List.count_append, hcount]
          · intro bb hmem
            simp at hmem
            rcases hmem with hmem | hm
            · exact hmem
            · have := hset _ hm
              simp [setupEv] at this
          · intro t c hmem
            simp at hmem
            rcases hmem with hmem | hm
            · exact hmem
            · have := hset _ hm
              simp [setupEv] at this
          · intro hRL
            subst hRL
            simp only [roundWorkloads, Prod.mk.injEq] at heq4
            obtain ⟨rfl, rfl, _⟩ := heq4
            rfl
          · intro n e2 hmem
            simp at hmem
            obtain ⟨hf, l, hl⟩ := w5 _ _ hmem
            simp at hf
          · simpa [sof_simNew, sof_sync, sof_addNode] using w7

lemma runRounds_go (O : SimOracle σ) (A : DefaulterApply) (nn : Node)
    (RL : List ResourceInfo) (itv : Bool) :
    ∀ (fuel i : Nat) (logs : List RoundLog) (rep : Option Nat) (res : Except Err Unit),
      runRounds O A nn RL itv i fuel = (logs, rep, res) →
      (logs.map RoundLog.k = List.range' i logs.length) ∧
      (logs.length ≤ fuel) ∧
      (∀ log ∈ logs, log = (runRound O A nn RL itv log.k).1) ∧
      (res = Except.ok () → rep = none → logs.length = fuel) ∧
      (∀ k, rep = some k → res = Except.ok () ∧ logs ≠ [] ∧ k + 1 = i + logs.length ∧
        (∀ log ∈ logs, (log.k < k → log.success = false) ∧ (log.k = k → log.success = true))) ∧
      (∀ e, res = Except.error e → rep = none) ∧
      (0 < fuel → logs ≠ []) ∧
      (∀ log ∈ logs, ∀ e, (runRound O A nn RL itv log.k).2 = some e →
        res = Except.error e ∧ (∃ l, logs = l ++ [log]) ∧ rep = none) ∧
      (res = Except.ok () → rep = none → ∀ log ∈ logs, log.success = false) := by
  intro fuel
  induction fuel with
  | zero =>
    intro i logs rep res h
    simp only [runRounds, Prod.mk.injEq] at h
    obtain ⟨rfl, rfl, rfl⟩ := h
    simp
  | succ fuel ih =>
    intro i logs rep res h
    simp only [runRounds] at h
    split at h
    case _ log e heq =>
      obtain ⟨rrk, -, -, -, -, -, -, -⟩ := runRound_inv O A nn RL itv i log (some e) heq
      simp only [Prod.mk.injEq] at h
      obtain ⟨rfl, rfl, rfl⟩ := h
      refine ⟨by simp [rrk], by simp only [List.length_cons, List.length_nil]; omega, ?_,
        by simp, by simp, fun _ _ => rfl, by simp, ?_, by simp⟩
      · intro log2 hmem
        simp at hmem
        subst hmem
        rw [rrk]
        exact (congrArg Prod.fst heq).symm
      · intro log2 hmem e2 hfat
        simp at hmem
        subst hmem
        rw [rrk] at hfat
        rw [heq] at hfat
        simp at hfat
        subst hfat
        exact ⟨rfl, ⟨[], rfl⟩, rfl⟩
    case _ log heq =>
      obtain ⟨rrk, -, -, -, -, -, -, -⟩ := runRound_inv O A nn RL itv i log none heq
      split at h
      case isTrue hsucc =>
        simp only [Prod.mk.injEq] at h
        obtain ⟨rfl, rfl, rfl⟩ := h
        refine ⟨by simp [rrk], by simp only [List.length_cons, List.length_nil]; omega, ?_,
          by simp, ?_, by simp, by simp, ?_, by simp⟩
        · intro log2 hmem
          simp at hmem
          subst hmem
          rw [rrk]
          exact (congrArg Prod.fst heq).symm
        · intro k hk
          simp at hk
          subst hk
          refine ⟨rfl, by simp, by simp, ?_⟩
          intro log2 hmem
          simp at hmem
          subst hmem
          refine ⟨?_, fun _ => hsucc⟩
          intro hlt
          rw [rrk] at hlt
          exact absurd hlt (Nat.lt_irrefl i)
        · intro log2 hmem e2 hfat
          simp at hmem
          subst hmem
          rw [rrk, heq] at hfat
          simp at hfat
      case isFalse hsucc =>
        rcases heq2 : runRounds O A nn RL itv (i + 1) fuel with ⟨logs1, rep1, res1⟩
        rw [heq2] at h
        simp only [Prod.mk.injEq] at h
        obtain ⟨rfl, rfl, rfl⟩ := h
        obtain ⟨g1, g2, g3, g4, g5, g6, g7, g8, g9⟩ := ih (i + 1) logs1 rep1 res1 heq2
        have hsf : log.success = false := by
          simpa using hsucc
        refine ⟨?_, ?_, ?_, ?_, ?_, g6, by simp, ?_, ?_⟩
        · simp only [List.map_cons, g1, List.length_cons, List.range'_succ, rrk]
        · simpa using Nat.succ_le_succ g2
        · intro log2 hmem
          rcases List.mem_cons.mp hmem with rfl | hm
          · rw [rrk]
            exact (congrArg Prod.fst heq).symm
          · exact g3 log2 hm
        · intro hok hrep
          simp [g4 hok hrep]
        · intro k hk
          obtain ⟨hok, hne, harith, hall⟩ := g5 k hk
          have hlen : 1 ≤ logs1.length := by
            cases logs1 with
            | nil => exact absurd rfl hne
            | cons a l => simp
          refine ⟨hok, by simp, by simp only [List.length_cons]; omega, ?_⟩
          intro log2 hmem
          rcases List.mem_cons.mp hmem with rfl | hm
          · constructor
            · intro _
              exact hsf
            · intro hkk
              rw [rrk] at hkk
              omega
          · exact hall log2 hm
        · intro log2 hmem e2 hfat
          rcases List.mem_cons.mp hmem with rfl | hm
          · rw [rrk, heq] at hfat
            simp at hfat
          · obtain ⟨hres, ⟨l, hl⟩, hrep⟩ := g8 log2 hm e2 hfat
            exact ⟨hres, ⟨log :: l, by simp [hl]⟩, hrep⟩
        · intro hok hrep log2 hmem
          rcases List.mem_cons.mp hmem with rfl | hm
          · exact hsf
          · exact g9 hok hrep log2 hm

lemma Run_inv (env : Env) (O : SimOracle σ) (opts : Options) :
    ((Run env O opts).rounds = [] ∧ (Run env O opts).reported = none ∧
      (Run env O opts).err ≠ none) ∨
    (∃ applier newNode resourceList logs rep res,
      ParseArgsAndConfigFile env opts = Except.ok applier ∧
      Validate env applier = Except.ok () ∧
      buildResourceList env applier.AppList = Except.ok resourceList ∧
      env.decodeNode applier.NewNode = some newNode ∧
      generateKubeClient env applier = Except.ok () ∧
      env.initSchedulerConfig applier.SchedulerConfig = Except.ok () ∧
      runRounds O applier newNode resourceList opts.Interactive 0 100 = (logs, rep, res) ∧
      (Run env O opts).rounds = logs ∧
      (Run env O opts).reported = rep ∧
      ((Run env O opts).err = none ↔ res = Except.ok ()) ∧
      (∀ e, res = Except.error e → (Run env O opts).err = some e)) := by
  rcases h1 : ParseArgsAndConfigFile env opts with e | applier
  · left
    simp [Run, h1]
  rcases h2 : Validate env applier with e | ⟨⟩
  · left
    simp [Run, h1, h2]
  rcases h3 : buildResourceList env applier.AppList with e | resourceList
  · left
    simp [Run, h1, h2, h3]
  rcases h4 : env.decodeNode applier.NewNode with - | newNode
  · left
    simp [Run, h1, h2, h3, h4]
  rcases h5 : generateKubeClient env applier with e | ⟨⟩
  · left
    simp [Run, h1, h2, h3, h4, h5]
  rcases h6 : env.initSchedulerConfig applier.SchedulerConfig with e | ⟨⟩
  · left
    simp [Run, h1, h2, h3, h4, h5, h6]
  rcases hrr : runRounds O applier newNode resourceList opts.Interactive 0 100 with ⟨logs, rep, res⟩
  right
  refine ⟨applier, newNode, resourceList, logs, rep, res, by simp [h1], by simp [h2],
    by simp [h3], by simp [h4], by simp [h5], by simp [h6], by simp [hrr], ?_, ?_, ?_, ?_⟩
  all_goals cases res with
  | error e2 => simp [Run, h1, h2, h3, h4, h5, h6, hrr]
  | ok u =>
    cases u
    simp [Run, h1, h2, h3, h4, h5, h6, hrr]

/-- Claim C1: for every session, the planner attempts trial sizes
k = 0, 1, 2, ... in strictly increasing order, one round per k, and stops
at the first k whose round succeeds, reporting that k; hence when success
is reported at k, every earlier round was attempted and failed, and no
earlier round was reported as successful. -/
theorem run_search_monotonic {σ : Type} (env : Env) (O : SimOracle σ) (opts : Options) :
    (Run env O opts).rounds.map RoundLog.k = List.range ((Run env O opts).rounds.length) ∧
    (∀ k, (Run env O opts).reported = some k →
      k + 1 = (Run env O opts).rounds.length ∧
      (∀ log ∈ (Run env O opts).rounds,
        (log.k < k → log.success = false) ∧ (log.k = k → log.success = true)) ∧
      (Run env O opts).err = none) := by
  rcases Run_inv env O opts with ⟨hr, hrep, herr⟩ |
    ⟨applier, nn, RL, logs, rep, res, p1, p2, p3, p4, p5, p6, hrr, hrnd, hrep, hiff, herr⟩
  · refine ⟨by rw [hr]; simp, ?_⟩
    intro k h
    rw [hrep] at h
    exact absurd h (by simp)
  · obtain ⟨g1, g2, g3, g4, g5, g6, g7, g8, g9⟩ :=
      runRounds_go O applier nn RL opts.Interactive 100 0 logs rep res hrr
    rw [hrnd]
    refine ⟨?_, ?_⟩
    · rw [List.range_eq_range']
      exact g1
    · intro k h
      rw [hrep] at h
      obtain ⟨hok, hne, harith, hall⟩ := g5 k h
      refine ⟨by omega, ?_, hiff.mpr hok⟩
      intro log hmem
      exact hall log hmem

/-- Claim C1 witness: a session whose round 0 fails and whose round 1
succeeds reports 1, after attempting rounds 0 and 1 in order. -/
theorem run_search_monotonic_witness :
    (Run env1 oracleNeedOne optsPlain).reported = some 1 ∧
    (Run env1 oracleNeedOne optsPlain).rounds.map RoundLog.k =
      List.range ((Run env1 oracleNeedOne optsPlain).rounds.length) ∧
    (1 + 1 = (Run env1 oracleNeedOne optsPlain).rounds.length ∧
    (∀ log ∈ (Run env1 oracleNeedOne optsPlain).rounds,
      (log.k < 1 → log.success = false) ∧ (log.k = 1 → log.success = true)) ∧
    (Run env1 oracleNeedOne optsPlain).err = none) :=
  ⟨rfl, (run_search_monotonic env1 oracleNeedOne optsPlain).1,
    (run_search_monotonic env1 oracleNeedOne optsPlain).2 1 rfl⟩

/-- Claim C3 (amended): a session in which no round succeeds runs all 100
rounds and returns nil exactly like a successful session; the exhausted
outcome is visible only in the console trace (no success message), not in
the value Run returns to the caller. -/
theorem run_exhausted_returns_nil {σ : Type} (env : Env) (O : SimOracle σ) (opts : Options) :
    ((Run env O opts).reported.isSome → (Run env O opts).err = none) ∧
    ((Run env O opts).err = none → (Run env O opts).reported = none →
      (Run env O opts).rounds.length = 100 ∧
      ∀ log ∈ (Run env O opts).rounds, log.success = false) := by
  rcases Run_inv env O opts with ⟨hr, hrep, herr⟩ |
    ⟨applier, nn, RL, logs, rep, res, p1, p2, p3, p4, p5, p6, hrr, hrnd, hrep, hiff, herr⟩
  · constructor
    · intro hs
      rw [hrep] at hs
      simp at hs
    · intro he _
      exact absurd he herr
  · obtain ⟨g1, g2, g3, g4, g5, g6, g7, g8, g9⟩ :=
      runRounds_go O applier nn RL opts.Interactive 100 0 logs rep res hrr
    constructor
    · intro hs
      rw [hrep] at hs
      rcases hrepv : rep with - | k2
      · rw [hrepv] at hs
        simp at hs
      · exact hiff.mpr (g5 k2 hrepv).1
    · intro he hrepn
      have hok : res = Except.ok () := hiff.mp he
      rw [hrep] at hrepn
      rw [hrnd]
      exact ⟨g4 hok hrepn, g9 hok hrepn⟩

/-- Claim C3 counterexample: a session whose rounds all fail returns the
same nil error value as a successful session; the caller cannot tell
SessionExhausted from success by the return value. -/
theorem run_exhausted_counterexample :
    (Run env1 oracleFail optsPlain).err = none ∧
    (Run env1 oracleFail optsPlain).reported = none ∧
    (Run env1 oracleFail optsPlain).rounds.length = 100 ∧
    (Run env1 oracleOk optsPlain).err = none ∧
    (Run env1 oracleOk optsPlain).reported = some 0 :=
  ⟨rfl, rfl, rfl, rfl, rfl⟩

/-- Claim C3 witness: the amended theorem evaluated on a session whose
oracle never schedules: it returns nil, reports nothing, and ran 100
failed rounds. -/
theorem run_exhausted_returns_nil_witness :
    (Run env1 oracleFail optsPlain).rounds.length = 100 ∧
    (∀ log ∈ (Run env1 oracleFail optsPlain).rounds, log.success = false) :=
  (run_exhausted_returns_nil env1 oracleFail optsPlain).2 rfl rfl

/-- Claim C7 (amended): the bound on trial sizes is the hard-coded
constant 100: no recognized option changes it, every error-free
unreported session attempts exactly 100 rounds, a session that attempted
no round failed before the loop (so an exhausted session always
constructed oracles), and a reported trial size is below 100. -/
theorem run_bound_fixed_at_100 {σ : Type} (env : Env) (O : SimOracle σ) (opts : Options) :
    (Run env O opts).rounds.length ≤ 100 ∧
    ((Run env O opts).err = none → (Run env O opts).reported = none →
      (Run env O opts).rounds.length = 100) ∧
    ((Run env O opts).rounds = [] → (Run env O opts).err ≠ none) ∧
    (∀ k, (Run env O opts).reported = some k → k < 100) := by
  rcases Run_inv env O opts with ⟨hr, hrep, herr⟩ |
    ⟨applier, nn, RL, logs, rep, res, p1, p2, p3, p4, p5, p6, hrr, hrnd, hrep, hiff, herr⟩
  · refine ⟨by rw [hr]; simp, ?_, fun _ => herr, ?_⟩
    · intro he _
      exact absurd he herr
    · intro k hk
      rw [hrep] at hk
      simp at hk
  · obtain ⟨g1, g2, g3, g4, g5, g6, g7, g8, g9⟩ :=
      runRounds_go O applier nn RL opts.Interactive 100 0 logs rep res hrr
    refine ⟨by rw [hrnd]; exact g2, ?_, ?_, ?_⟩
    · intro he hrepn
      rw [hrep] at hrepn
      rw [hrnd]
      exact g4 (hiff.mp he) hrepn
    · intro hx
      rw [hrnd] at hx
      exact absurd hx (g7 (by omega))
    · intro k hk
      rw [hrep] at hk
      obtain ⟨-, -, harith, -⟩ := g5 k hk
      have : logs.length ≤ 100 := g2
      omega

/-- Claim C7 counterexample: the Options record carries no maxRounds
field; under every combination of the recognized options a session whose
rounds all fail attempts exactly 100 rounds (and so constructs 100 oracle
instances) before ending unreported, so no configuration yields an
immediate SessionExhausted with no oracle constructed. -/
theorem run_no_maxrounds_counterexample :
    (Run env1 oracleFail optsPlain).rounds.length = 100 ∧
    (Run env1 oracleFail optsGreed).rounds.length = 100 ∧
    (Run env1 oracleFail optsInteractive).rounds.length = 100 ∧
    (Run env1 oracleFail optsGreed).reported = none :=
  ⟨rfl, rfl, rfl, rfl⟩

/-- Claim C7 witness: the amended theorem evaluated on a concrete
exhausted session. -/
theorem run_bound_fixed_at_100_witness :
    (Run env1 oracleFail optsInteractive).rounds.length = 100 :=
  (run_bound_fixed_at_100 env1 oracleFail optsInteractive).2.1 rfl rfl

/-- Claim C2 (amended): in a non-interactive session a round is successful
only if every workload of the caller-supplied list places successfully in
that order (the successfully scheduled workload names are exactly the
round workload names, in order); in every session the first workload whose
units fail to place ends the round at once: a scheduling failure is always
the last event of the workload loop, so no later workload is processed.
In interactive sessions the operator may decline to continue, ending a
round successfully after only a prefix of the workloads. -/
theorem round_success_requires_all_workloads {σ : Type} (O : SimOracle σ)
    (useGreed interactive : Bool) (rl : List ResourceInfo) (s : σ)
    (evs : List REvent) (succ : Bool) (fatal : Option Err)
    (h : roundWorkloads O useGreed interactive rl s false false = (evs, succ, fatal)) :
    (interactive = false → fatal = none → succ = true →
      evs.filterMap schedOkName = rl.map ResourceInfo.Name) ∧
    (∀ n e, REvent.schedFail n e ∈ evs → ∃ l, evs = l ++ [REvent.schedFail n e]) := by
  obtain ⟨-, -, w3, w4, -, -, -⟩ :=
    roundWorkloads_inv O useGreed interactive rl s false false evs succ fatal h
  exact ⟨w3, w4⟩

/-- Claim C2 witness: a concrete non-interactive round over workloads A
then B in which both place: the round is successful and the scheduled
names are exactly A then B. -/
theorem round_success_requires_all_workloads_witness :
    ([REvent.daemons [9], REvent.batch ("A") [7, 9] [7, 9], REvent.schedOk ("A"),
        REvent.saveOk ("A"), REvent.batch ("B") [7] [7], REvent.schedOk ("B"),
        REvent.saveOk ("B")].filterMap schedOkName =
      [({ Name := "A", Res := "r" } : ResourceInfo),
        { Name := "B", Res := "r" }].map ResourceInfo.Name) ∧
    (∀ n e, REvent.schedFail n e ∈
        [REvent.daemons [9], REvent.batch ("A") [7, 9] [7, 9], REvent.schedOk ("A"),
          REvent.saveOk ("A"), REvent.batch ("B") [7] [7], REvent.schedOk ("B"),
          REvent.saveOk ("B")] →
      ∃ l, [REvent.daemons [9], REvent.batch ("A") [7, 9] [7, 9], REvent.schedOk ("A"),
          REvent.saveOk ("A"), REvent.batch ("B") [7] [7], REvent.schedOk ("B"),
          REvent.saveOk ("B")] = l ++ [REvent.schedFail n e]) :=
  ⟨(round_success_requires_all_workloads oracleOk false false
      [{ Name := "A", Res := "r" }, { Name := "B", Res := "r" }] 0 _ true none rfl).1
      rfl rfl rfl,
    (round_success_requires_all_workloads oracleOk false false
      [{ Name := "A", Res := "r" }, { Name := "B", Res := "r" }] 0 _ true none rfl).2⟩

/-- Claim C2 counterexample: with the interactive option on, a session
with workloads A and B whose operator declines to continue after A is
reported successful at k = 0 although workload B was never submitted: the
round outcome is success without every workload having placed. -/
theorem round_success_interactive_counterexample :
    (Run env2 oracleDecline optsInteractive).reported = some 0 ∧
    (Run env2 oracleDecline optsInteractive).rounds =
      [{ k := 0,
         events := [REvent.simNew, REvent.sync ("c"), REvent.addNode ("n") 0,
           REvent.daemons [9], REvent.batch ("A") [7, 9] [7, 9], REvent.schedOk ("A"),
           REvent.saveOk ("A"), REvent.ask ("A") false, REvent.close],
         success := true }] ∧
    env2.readSimonConfig ("s") =
      Except.ok { Cluster := { KubeConfig := "", CustomCluster := "c" }
                  AppList := [{ Name := "A", Path := "p", Chart := false },
                              { Name := "B", Path := "q", Chart := false }]
                  NewNode := "n" } :=
  ⟨rfl, rfl, rfl⟩

/-- Claim C5: in every round with a non-empty workload list, the daemon
(node-bound) units are expanded exactly once, prepended to the batch of
the first workload processed in the round; no later event of the round is
a daemon expansion, regardless of how many workloads the round processes. -/
theorem round_daemon_expansion_once {σ : Type} (O : SimOracle σ)
    (useGreed interactive : Bool) (r : ResourceInfo) (rest : List ResourceInfo) (s : σ) :
    ∃ tail,
      (roundWorkloads O useGreed interactive (r :: rest) s false false).1 =
        REvent.daemons (O.daemonPods s) ::
        REvent.batch r.Name (O.generatePods s r.Res ++ O.daemonPods s)
          (if useGreed then O.sortGreed (O.getNodes s) (O.generatePods s r.Res ++ O.daemonPods s)
           else O.generatePods s r.Res ++ O.daemonPods s) :: tail ∧
      ∀ ev ∈ tail, isDaemons ev = false := by
  rcases hE : roundWorkloads O useGreed interactive (r :: rest) s false false with ⟨evs, succ, fatal⟩
  simp only [roundWorkloads, Bool.not_false, if_true, List.cons_append, List.nil_append] at hE
  split at hE
  case _ e heq =>
    simp only [Prod.mk.injEq] at hE
    obtain ⟨rfl, rfl, rfl⟩ := hE
    exact ⟨[REvent.schedFail r.Name e], rfl, by simp [isDaemons]⟩
  case _ s1 heq =>
    split at hE
    case _ e heq2 =>
      simp only [Prod.mk.injEq] at hE
      obtain ⟨rfl, rfl, rfl⟩ := hE
      exact ⟨[REvent.schedOk r.Name, REvent.saveFail r.Name e], rfl, by simp [isDaemons]⟩
    case _ s2 heq2 =>
      split at hE
      case isTrue hitv =>
        split at hE
        case isTrue hc =>
          rcases hrec : roundWorkloads O useGreed interactive rest s2 true true
            with ⟨evs1, succ1, fatal1⟩
          rw [hrec] at hE
          simp only [Prod.mk.injEq] at hE
          obtain ⟨rfl, rfl, rfl⟩ := hE
          obtain ⟨-, w2, -, -, -, -, -⟩ :=
            roundWorkloads_inv O useGreed interactive rest s2 true true evs1 succ1 fatal1 hrec
          have hnd : ∀ ev ∈ evs1, isDaemons ev = false := by
            simpa using w2 rfl
          refine ⟨REvent.schedOk r.Name :: REvent.saveOk r.Name ::
            REvent.ask r.Name true :: evs1, rfl, ?_⟩
          intro ev hmem
          simp only [List.mem_cons] at hmem
          rcases hmem with rfl | rfl | rfl | hm
          · rfl
          · rfl
          · rfl
          · exact hnd ev hm
        case isFalse hc =>
          simp only [Prod.mk.injEq] at hE
          obtain ⟨rfl, rfl, rfl⟩ := hE
          exact ⟨[REvent.schedOk r.Name, REvent.saveOk r.Name, REvent.ask r.Name false],
            rfl, by simp [isDaemons]⟩
      case isFalse hitv =>
        rcases hrec : roundWorkloads O useGreed interactive rest s2 true true
          with ⟨evs1, succ1, fatal1⟩
        rw [hrec] at hE
        simp only [Prod.mk.injEq] at hE
        obtain ⟨rfl, rfl, rfl⟩ := hE
        obtain ⟨-, w2, -, -, -, -, -⟩ :=
          roundWorkloads_inv O useGreed interactive rest s2 true true evs1 succ1 fatal1 hrec
        have hnd : ∀ ev ∈ evs1, isDaemons ev = false := by
          simpa using w2 rfl
        refine ⟨REvent.schedOk r.Name :: REvent.saveOk r.Name :: evs1, rfl, ?_⟩
        intro ev hmem
        simp only [List.mem_cons] at hmem
        rcases hmem with rfl | rfl | hm
        · rfl
        · rfl
        · exact hnd ev hm

/-- Claim C5 witness: the round phase of a concrete two-workload round
expands daemon pods exactly once, at the head of the first workload
batch. -/
theorem round_daemon_expansion_once_witness :
    ∃ tail,
      (roundWorkloads oracleOk false false
          [{ Name := "A", Res := "r" }, { Name := "B", Res := "r" }] 0 false false).1 =
        REvent.daemons (oracleOk.daemonPods 0) ::
        REvent.batch ("A") (oracleOk.generatePods 0 ("r") ++ oracleOk.daemonPods 0)
          (if false then oracleOk.sortGreed (oracleOk.getNodes 0)
              (oracleOk.generatePods 0 ("r") ++ oracleOk.daemonPods 0)
           else oracleOk.generatePods 0 ("r") ++ oracleOk.daemonPods 0) :: tail ∧
      ∀ ev ∈ tail, isDaemons ev = false :=
  round_daemon_expansion_once oracleOk false false
    { Name := "A", Res := "r" } [{ Name := "B", Res := "r" }] 0

/-- Claim C4: every attempted round of a session is computed by the
round function alone from the session inputs and its own trial size: the
log of the round at trial size k equals runRound evaluated at k, its
first event is the construction of a fresh simulator (which happens
exactly once in the round), every cluster sync of the round uses the
unmodified base description, and every node addition of the round passes
the candidate template and exactly k as the count.  No state of any other
round enters a round. -/
theorem run_round_isolation {σ : Type} (env : Env) (O : SimOracle σ) (opts : Options)
    (applier : DefaulterApply) (newNode : Node) (resourceList : List ResourceInfo)
    (h1 : ParseArgsAndConfigFile env opts = Except.ok applier)
    (h3 : buildResourceList env applier.AppList = Except.ok resourceList)
    (h4 : env.decodeNode applier.NewNode = some newNode) :
    ∀ log ∈ (Run env O opts).rounds,
      log = (runRound O applier newNode resourceList opts.Interactive log.k).1 ∧
      log.events.head? = some REvent.simNew ∧
      log.events.count REvent.simNew = 1 ∧
      (∀ b, REvent.sync b ∈ log.events → b = applier.Cluster.CustomCluster) ∧
      (∀ t c, REvent.addNode t c ∈ log.events → t = newNode ∧ c = log.k) := by
  rcases Run_inv env O opts with ⟨hr, -, -⟩ |
    ⟨applier2, nn2, RL2, logs, rep, res, p1, p2, p3, p4, p5, p6, hrr, hrnd, -, -, -⟩
  · rw [hr]
    simp
  · rw [h1] at p1
    injection p1 with hA
    subst hA
    rw [h3] at p3
    injection p3 with hR
    subst hR
    rw [h4] at p4
    injection p4 with hN
    subst hN
    obtain ⟨g1, g2, g3, g4, g5, g6, g7, g8, g9⟩ :=
      runRounds_go O applier newNode resourceList opts.Interactive 100 0 logs rep res hrr
    intro log hmem0
    have hmem : log ∈ logs := by
      rw [hrnd] at hmem0
      exact hmem0
    have hlog := g3 log hmem
    rcases hre : runRound O applier newNode resourceList opts.Interactive log.k
      with ⟨log2, fatal2⟩
    obtain ⟨rrk, rrh, rrc, rrs, rra, -, -, -⟩ :=
      runRound_inv O applier newNode resourceList opts.Interactive log.k log2 fatal2 hre
    have hl2 : log = log2 := by
      rw [hre] at hlog
      exact hlog
    subst hl2
    exact ⟨rfl, rrh, rrc, rrs, rra⟩

/-- Claim C4 witness: in the two-round session that succeeds at k = 1,
the failed round 0 is exactly the value of runRound at 0, starts with a
fresh simulator, syncs the base and adds 0 trial nodes. -/
theorem run_round_isolation_witness :
    ({ k := 0,
       events := [REvent.simNew, REvent.sync ("c"), REvent.addNode ("n") 0,
         REvent.daemons [9], REvent.batch ("A") [7, 9] [7, 9],
         REvent.schedFail ("A") ("nofit"), REvent.close],
       success := false } : RoundLog) =
      (runRound oracleNeedOne
        { Cluster := { KubeConfig := "", CustomCluster := "c" }
          AppList := [{ Name := "A", Path := "p", Chart := false }]
          NewNode := "n", SchedulerConfig := "", UseGreed := false }
        ("n") [{ Name := "A", Res := "r" }] false
        ({ k := 0,
           events := [REvent.simNew, REvent.sync ("c"), REvent.addNode ("n") 0,
             REvent.daemons [9], REvent.batch ("A") [7, 9] [7, 9],
             REvent.schedFail ("A") ("nofit"), REvent.close],
           success := false } : RoundLog).k).1 ∧
    ({ k := 0,
       events := [REvent.simNew, REvent.sync ("c"), REvent.addNode ("n") 0,
         REvent.daemons [9], REvent.batch ("A") [7, 9] [7, 9],
         REvent.schedFail ("A") ("nofit"), REvent.close],
       success := false } : RoundLog).events.head? = some REvent.simNew ∧
    ({ k := 0,
       events := [REvent.simNew, REvent.sync ("c"), REvent.addNode ("n") 0,
         REvent.daemons [9], REvent.batch ("A") [7, 9] [7, 9],
         REvent.schedFail ("A") ("nofit"), REvent.close],
       success := false } : RoundLog).events.count REvent.simNew = 1 ∧
    (∀ b, REvent.sync b ∈
        ({ k := 0,
           events := [REvent.simNew, REvent.sync ("c"), REvent.addNode ("n") 0,
             REvent.daemons [9], REvent.batch ("A") [7, 9] [7, 9],
             REvent.schedFail ("A") ("nofit"), REvent.close],
           success := false } : RoundLog).events →
      b = ({ Cluster := { KubeConfig := "", CustomCluster := "c" }
             AppList := [{ Name := "A", Path := "p", Chart := false }]
             NewNode := "n", SchedulerConfig := "", UseGreed := false } :
        DefaulterApply).Cluster.CustomCluster) ∧
    (∀ t c, REvent.addNode t c ∈
        ({ k := 0,
           events := [REvent.simNew, REvent.sync ("c"), REvent.addNode ("n") 0,
             REvent.daemons [9], REvent.batch ("A") [7, 9] [7, 9],
             REvent.schedFail ("A") ("nofit"), REvent.close],
           success := false } : RoundLog).events →
      t = ("n") ∧ c =
        ({ k := 0,
           events := [REvent.simNew, REvent.sync ("c"), REvent.addNode ("n") 0,
             REvent.daemons [9], REvent.batch ("A") [7, 9] [7, 9],
             REvent.schedFail ("A") ("nofit"), REvent.close],
           success := false } : RoundLog).k) :=
  run_round_isolation env1 oracleNeedOne optsPlain
    { Cluster := { KubeConfig := "", CustomCluster := "c" }
      AppList := [{ Name := "A", Path := "p", Chart := false }]
      NewNode := "n", SchedulerConfig := "", UseGreed := false }
    ("n") [{ Name := "A", Res := "r" }] rfl rfl rfl
    { k := 0,
      events := [REvent.simNew, REvent.sync ("c"), REvent.addNode ("n") 0,
        REvent.daemons [9], REvent.batch ("A") [7, 9] [7, 9],
        REvent.schedFail ("A") ("nofit"), REvent.close],
      success := false } (by decide)

/-- Claim C6 (amended): in a session whose workload list is empty no round
ever succeeds: the success flag starts false and the workload loop body
never runs, so the round at k = 0 fails like every other, the session
never reports a success, and (absent fatal errors) it exhausts all 100
rounds. -/
theorem run_empty_workloads_never_succeeds {σ : Type} (env : Env) (O : SimOracle σ)
    (opts : Options) (applier : DefaulterApply)
    (h1 : ParseArgsAndConfigFile env opts = Except.ok applier)
    (h2 : applier.AppList = []) :
    (Run env O opts).reported = none ∧
    (∀ log ∈ (Run env O opts).rounds, log.success = false) ∧
    ((Run env O opts).err = none → (Run env O opts).rounds.length = 100) := by
  rcases Run_inv env O opts with ⟨hr, hrep, herr⟩ |
    ⟨applier2, nn2, RL2, logs, rep, res, p1, p2, p3, p4, p5, p6, hrr, hrnd, hrep, hiff, herr⟩
  · refine ⟨hrep, ?_, ?_⟩
    · rw [hr]
      simp
    · intro he
      exact absurd he herr
  · rw [h1] at p1
    injection p1 with hA
    subst hA
    rw [h2] at p3
    simp only [buildResourceList] at p3
    injection p3 with hR
    subst hR
    obtain ⟨g1, g2, g3, g4, g5, g6, g7, g8, g9⟩ :=
      runRounds_go O applier nn2 [] opts.Interactive 100 0 logs rep res hrr
    have hfail : ∀ log ∈ logs, log.success = false := by
      intro log hmem
      have hlog := g3 log hmem
      rcases hre : runRound O applier nn2 [] opts.Interactive log.k with ⟨log2, fatal2⟩
      obtain ⟨-, -, -, -, -, rr6, -, -⟩ :=
        runRound_inv O applier nn2 [] opts.Interactive log.k log2 fatal2 hre
      rw [hre] at hlog
      rw [hlog]
      exact rr6 rfl
    have hrepn : rep = none := by
      rcases hrv : rep with - | k
      · rfl
      · obtain ⟨hok, hne, harith, hall⟩ := g5 k hrv
        have hlen : 1 ≤ logs.length := by
          cases logs with
          | nil => exact absurd rfl hne
          | cons a l => simp
        have hk : k ∈ logs.map RoundLog.k := by
          rw [g1]
          exact List.mem_range'.mpr ⟨k, by omega, by omega⟩
        obtain ⟨log, hmem, hlogk⟩ := List.mem_map.mp hk
        have hT := (hall log hmem).2 hlogk
        rw [hfail log hmem] at hT
        exact absurd hT (by simp)
    refine ⟨by rw [hrep, hrepn], ?_, ?_⟩
    · intro log hmem
      rw [hrnd] at hmem
      exact hfail log hmem
    · intro he
      rw [hrnd]
      exact g4 (hiff.mp he) hrepn

/-- Claim C6 counterexample: a session with an empty workload list does
not succeed at k = 0: its round 0 has no successful-scheduling event and
a false success flag, the session never reports success, returns nil, and
runs all 100 rounds. -/
theorem run_empty_workloads_counterexample :
    (Run envEmpty oracleOk optsPlain).reported = none ∧
    (Run envEmpty oracleOk optsPlain).err = none ∧
    (Run envEmpty oracleOk optsPlain).rounds.length = 100 ∧
    (Run envEmpty oracleOk optsPlain).rounds.head? =
      some { k := 0,
             events := [REvent.simNew, REvent.sync ("c"), REvent.addNode ("n") 0,
               REvent.close],
             success := false } :=
  ⟨rfl, rfl, rfl, rfl⟩

/-- Claim C6 witness: the amended theorem evaluated on the concrete
empty-workload session. -/
theorem run_empty_workloads_never_succeeds_witness :
    (Run envEmpty oracleOk optsPlain).reported = none ∧
    (∀ log ∈ (Run envEmpty oracleOk optsPlain).rounds, log.success = false) ∧
    ((Run envEmpty oracleOk optsPlain).err = none →
      (Run envEmpty oracleOk optsPlain).rounds.length = 100) :=
  run_empty_workloads_never_succeeds envEmpty oracleOk optsPlain
    { Cluster := { KubeConfig := "", CustomCluster := "c" }, AppList := [],
      NewNode := "n", SchedulerConfig := "", UseGreed := false } rfl rfl

/-- Claim C9: a session must supply exactly one of the live-cluster
connection descriptor (kubeConfig) and the static cluster description
(customCluster): when both or neither is supplied the session fails with
the configuration-conflict error before any search round (no round log,
no report); when exactly one is supplied the mutual-exclusion check of
Validate accepts. -/
theorem run_requires_exactly_one_cluster_source {σ : Type} (env : Env) (O : SimOracle σ)
    (opts : Options) (applier : DefaulterApply)
    (h1 : ParseArgsAndConfigFile env opts = Except.ok applier) :
    (((applier.Cluster.KubeConfig.length = 0 ∧ applier.Cluster.CustomCluster.length = 0) ∨
      (applier.Cluster.KubeConfig.length ≠ 0 ∧ applier.Cluster.CustomCluster.length ≠ 0)) →
      (Run env O opts).err =
        some ("Invalid information: " ++
          "only one of values of both kubeConfig and customConfig must exist" ++ " ") ∧
      (Run env O opts).rounds = [] ∧
      (Run env O opts).reported = none) ∧
    ((applier.Cluster.KubeConfig.length = 0 ↔ applier.Cluster.CustomCluster.length ≠ 0) →
      ((applier.Cluster.KubeConfig.length == 0 && applier.Cluster.CustomCluster.length == 0)
        || (applier.Cluster.KubeConfig.length != 0 &&
            applier.Cluster.CustomCluster.length != 0)) = false) := by
  constructor
  · intro hbad
    have hcond : ((applier.Cluster.KubeConfig.length == 0 &&
        applier.Cluster.CustomCluster.length == 0)
        || (applier.Cluster.KubeConfig.length != 0 &&
            applier.Cluster.CustomCluster.length != 0)) = true := by
      rcases hbad with ⟨hK, hC⟩ | ⟨hK, hC⟩ <;> simp [hK, hC]
    have hval : Validate env applier = Except.error
        ("only one of values of both kubeConfig and customConfig must exist") := by
      rw [Validate, if_pos hcond]
    refine ⟨?_, ?_, ?_⟩ <;> simp [Run, h1, hval]
  · intro hx
    rcases Nat.eq_zero_or_pos applier.Cluster.KubeConfig.length with hK | hK
    · have hC : applier.Cluster.CustomCluster.length ≠ 0 := hx.mp hK
      simp [hK, hC]
    · have hKne : applier.Cluster.KubeConfig.length ≠ 0 := by omega
      have hC : applier.Cluster.CustomCluster.length = 0 := by
        by_contra hc
        exact hKne (hx.mpr hc)
      simp [hKne, hC]

/-- Claim C9 witness: a config supplying neither cluster source fails with
the configuration-conflict error and attempts no round. -/
theorem run_requires_exactly_one_cluster_source_witness :
    (Run envNeither oracleOk optsPlain).err =
      some ("Invalid information: " ++
        "only one of values of both kubeConfig and customConfig must exist" ++ " ") ∧
    (Run envNeither oracleOk optsPlain).rounds = [] ∧
    (Run envNeither oracleOk optsPlain).reported = none :=
  (run_requires_exactly_one_cluster_source envNeither oracleOk optsPlain
    { Cluster := { KubeConfig := "", CustomCluster := "" }
      AppList := [{ Name := "A", Path := "p", Chart := false }]
      NewNode := "n", SchedulerConfig := "", UseGreed := false } rfl).1
    (Or.inl ⟨rfl, rfl⟩)

/-- Claim C10: in every round of every session — including rounds of
sessions that later fail — each successfully placed workload is
immediately followed by a config-map persistence attempt, and a failed
persistence aborts the whole session at once: the session error is the
save error, nothing is reported, the failing round is the last round, and
the save failure is the last event of that round. -/
theorem run_save_failure_aborts {σ : Type} (env : Env) (O : SimOracle σ) (opts : Options) :
    ∀ log ∈ (Run env O opts).rounds,
      schedOkFollowed log.events = true ∧
      (∀ n e, REvent.saveFail n e ∈ log.events →
        (Run env O opts).err = some e ∧
        (Run env O opts).reported = none ∧
        (∃ l, (Run env O opts).rounds = l ++ [log]) ∧
        (∃ l, log.events = l ++ [REvent.saveFail n e])) := by
  rcases Run_inv env O opts with ⟨hr, -, -⟩ |
    ⟨applier, nn, RL, logs, rep, res, p1, p2, p3, p4, p5, p6, hrr, hrnd, hrep, hiff, herr⟩
  · rw [hr]
    simp
  · obtain ⟨g1, g2, g3, g4, g5, g6, g7, g8, g9⟩ :=
      runRounds_go O applier nn RL opts.Interactive 100 0 logs rep res hrr
    intro log hmem0
    have hmem : log ∈ logs := by
      rw [hrnd] at hmem0
      exact hmem0
    have hlog := g3 log hmem
    rcases hre : runRound O applier nn RL opts.Interactive log.k with ⟨log2, fatal2⟩
    obtain ⟨-, -, -, -, -, -, rr7, rr8⟩ :=
      runRound_inv O applier nn RL opts.Interactive log.k log2 fatal2 hre
    have hl2 : log = log2 := by
      rw [hre] at hlog
      exact hlog
    subst hl2
    refine ⟨rr8, ?_⟩
    intro n e hm
    obtain ⟨hf, l, hl⟩ := rr7 n e hm
    obtain ⟨hres, ⟨l2, hl2b⟩, hrepn⟩ := g8 log hmem e (by rw [hre]; exact hf)
    exact ⟨herr e hres, by rw [hrep, hrepn], ⟨l2, by rw [hrnd, hl2b]⟩, ⟨l, hl⟩⟩

/-- Claim C10 witness: a concrete session whose config-map save fails at
workload A in round 0 aborts with that error, reports nothing, and the
failing save is the last event of the last round. -/
theorem run_save_failure_aborts_witness :
    schedOkFollowed saveFailLog.events = true ∧
    ((Run env2 oracleSaveFail optsPlain).err = some ("savefail") ∧
     (Run env2 oracleSaveFail optsPlain).reported = none ∧
     (∃ l, (Run env2 oracleSaveFail optsPlain).rounds = l ++ [saveFailLog]) ∧
     (∃ l, saveFailLog.events = l ++ [REvent.saveFail ("A") ("savefail")])) :=
  ⟨(run_save_failure_aborts env2 oracleSaveFail optsPlain saveFailLog (by decide)).1,
   (run_save_failure_aborts env2 oracleSaveFail optsPlain saveFailLog (by decide)).2
     ("A") ("savefail") (by decide)⟩

end OpenSimulator
